import Mathlib

/-!
Formal model of the `trafficgen` encounter generator
(`src/trafficgen/encounter.py`, `marine_system_simulator.py`, `utils.py`,
`check_land_crossing.py`, `types.py`).

Python floats are modelled as real numbers.  Python exceptions that the
claims depend on are modelled explicitly (see `path_crosses_land` and the
`raised` field of `SearchState`); `random.uniform(0, 1)` draws are modelled
by an injected stream `u : ℕ → ℝ` consumed left to right, and
`random.randint` by an injected natural number `pick`.
-/

namespace TrafficGen

open scoped Classical

noncomputable section

/-- `np.mod x y`: remainder with the sign of `y`; the source only uses it
with `y = 2π > 0`, where the result lies in `[0, y)`. -/
def npMod (x y : ℝ) : ℝ := x - y * ⌊x / y⌋

/-- `np.arctan2 y x` (quadrant-aware arctangent, `np.arctan2 0 0 = 0`). -/
def arctan2 (y x : ℝ) : ℝ :=
  if 0 < x then Real.arctan (y / x)
  else if x < 0 then
    (if 0 ≤ y then Real.arctan (y / x) + Real.pi else Real.arctan (y / x) - Real.pi)
  else if 0 < y then Real.pi / 2
  else if y < 0 then -(Real.pi / 2)
  else 0

/-- Python `round` to an integer: banker's rounding (round half to even);
away from exact halves it is rounding to the nearest integer. -/
def roundHalfEven (x : ℝ) : ℤ :=
  if Int.fract x = 1 / 2 then (if Even ⌊x⌋ then ⌊x⌋ else ⌊x⌋ + 1) else round x

/-- Python `round(x, d)` with `d` decimal digits (used by the source as
`round(_, 0)`, `round(_, 1)` and `round(_, 3)`). -/
def pyRound (x : ℝ) (d : ℕ) : ℝ := (roundHalfEven (x * 10 ^ d) : ℝ) / 10 ^ d

/-- Python `int(x)` truncates toward zero. -/
def pyInt (x : ℝ) : ℤ := if 0 ≤ x then ⌊x⌋ else -⌊-x⌋

/-! ### marine_system_simulator.py

`flat2llh` and `llh2flat` are embedded with their default arguments
`z_n = 0`, `height = 0`, `height_ref = 0` (the only way the repository calls
them); the height component of the returned triple is then identically `0`
and is dropped. -/

/-- WGS-84 semi-major axis [m]. -/
def a_radius : ℝ := 6378137

/-- WGS-84 flattening. -/
def f_factor : ℝ := 1 / 298.257223563

/-- WGS-84 eccentricity `e = sqrt(2f − f²)`. -/
def e_eccentricity : ℝ := Real.sqrt (2 * f_factor - f_factor ^ 2)

/-- Transverse radius of curvature `Rn` at the reference latitude. -/
def r_n (lat_0 : ℝ) : ℝ :=
  a_radius / Real.sqrt (1 - e_eccentricity ^ 2 * Real.sin lat_0 ^ 2)

/-- Meridional radius of curvature `Rm` at the reference latitude. -/
def r_m (lat_0 : ℝ) : ℝ :=
  r_n lat_0 * ((1 - e_eccentricity ^ 2) / (1 - e_eccentricity ^ 2 * Real.sin lat_0 ^ 2))

/-- `ssa(angle) = np.mod(angle + π, 2π) − π` (smallest signed angle). -/
def ssa (angle : ℝ) : ℝ := npMod (angle + Real.pi) (2 * Real.pi) - Real.pi

/-- `flat2llh(x_n, y_n, lat_0, lon_0)` → `(lat, lon)`. -/
def flat2llh (x_n y_n lat_0 lon_0 : ℝ) : ℝ × ℝ :=
  let d_lat := x_n / r_m lat_0
  let d_lon := y_n / (r_n lat_0 * Real.cos lat_0)
  (ssa (lat_0 + d_lat), ssa (lon_0 + d_lon))

/-- `llh2flat(lat, lon, lat_0, lon_0)` → `(x_n, y_n)`. -/
def llh2flat (lat lon lat_0 lon_0 : ℝ) : ℝ × ℝ :=
  ((lat - lat_0) * r_m lat_0, (lon - lon_0) * (r_n lat_0 * Real.cos lat_0))

/-! ### types.py (the fields the encounter core reads) -/

structure GeoPosition where
  lat : ℝ
  lon : ℝ

inductive EncounterType
  | OVERTAKING_STAND_ON
  | OVERTAKING_GIVE_WAY
  | HEAD_ON
  | CROSSING_GIVE_WAY
  | CROSSING_STAND_ON
  | NO_RISK_COLLISION
deriving DecidableEq

inductive AisNavStatus
  | UNDER_WAY_USING_ENGINE
  | AT_ANCHOR
  | NOT_UNDER_COMMAND
  | MOORED
  | UNDEFINED
deriving DecidableEq

/-- Static ship data (the fields the encounter core reads or writes;
`sog_max` is `Optional` in the source and asserted non-`None` at its only
read, `encounter.py` line 159). -/
structure ShipStatic where
  id : ℤ
  mmsi : Option ℤ
  name : Option String
  sog_min : Option ℝ
  sog_max : Option ℝ

structure Initial where
  position : GeoPosition
  sog : ℝ
  cog : ℝ
  heading : ℝ
  nav_status : Option AisNavStatus

structure DataPoint where
  value : Option ℝ

structure RouteData where
  sog : Option DataPoint

structure Leg where
  data : Option RouteData

structure Waypoint where
  position : GeoPosition
  turn_radius : Option ℝ
  leg : Option Leg

/-- Own ship.  `generate_encounter` asserts `initial` and `waypoints` are
not `None`, so they are embedded as present. -/
structure OwnShip where
  static : ShipStatic
  initial : Initial
  waypoints : List Waypoint

structure TargetShip where
  static : ShipStatic
  initial : Option Initial
  waypoints : Option (List Waypoint)

structure EncounterClassification where
  theta13_criteria : ℝ
  theta14_criteria : ℝ
  theta15_criteria : ℝ
  theta15 : List ℝ

structure EncounterRelativeSpeed where
  overtaking_stand_on : List ℝ
  overtaking_give_way : List ℝ
  head_on : List ℝ
  crossing_give_way : List ℝ
  crossing_stand_on : List ℝ

structure EncounterSettings where
  classification : EncounterClassification
  relative_speed : EncounterRelativeSpeed
  vector_range : List ℝ
  common_vector : ℝ
  situation_length : ℝ
  max_meeting_distance : ℝ
  evolve_time : ℝ
  disable_land_check : Bool

/-! ### utils.py -/

def convert_angle_minus_pi_to_pi_to_0_to_2_pi (angle_pi : ℝ) : ℝ :=
  if 0 ≤ angle_pi then angle_pi else angle_pi + 2 * Real.pi

def convert_angle_0_to_2_pi_to_minus_pi_to_pi (angle_2_pi : ℝ) : ℝ :=
  if 0 ≤ angle_2_pi ∧ angle_2_pi ≤ Real.pi then angle_2_pi else angle_2_pi - 2 * Real.pi

def calculate_position_at_certain_time (position lat_lon0 : GeoPosition)
    (sog cog delta_time : ℝ) : GeoPosition :=
  let ne := llh2flat position.lat position.lon lat_lon0.lat lat_lon0.lon
  let north := ne.1 + sog * delta_time * Real.cos cog
  let east := ne.2 + sog * delta_time * Real.sin cog
  let ll := flat2llh north east lat_lon0.lat lat_lon0.lon
  ⟨ll.1, ll.2⟩

def calculate_distance (position_prev position_next : GeoPosition) : ℝ :=
  let ne := llh2flat position_next.lat position_next.lon position_prev.lat position_prev.lon
  Real.sqrt (ne.1 ^ 2 + ne.2 ^ 2)

def calculate_bearing_between_waypoints (position_prev position_next : GeoPosition) : ℝ :=
  let ne := llh2flat position_next.lat position_next.lon position_prev.lat position_prev.lon
  convert_angle_minus_pi_to_pi_to_0_to_2_pi (arctan2 ne.2 ne.1)

def calculate_destination_along_track (position_prev : GeoPosition)
    (distance bearing : ℝ) : GeoPosition :=
  let ll := flat2llh (distance * Real.cos bearing) (distance * Real.sin bearing)
    position_prev.lat position_prev.lon
  ⟨ll.1, ll.2⟩

/-- Loop body of `calculate_position_along_track_using_waypoints`
(`prev` is waypoint `i−1`, the list holds waypoints `i, i+1, …`; the source
asserts `leg.data.sog.value` is not `None` when the leg chain is present). -/
def position_along_track_walk (inital_speed vector_time : ℝ) :
    Waypoint → List Waypoint → ℝ → GeoPosition
  | prev, [], _ => prev.position
  | prev, w :: rest, time_in_transit =>
    let ship_speed :=
      match w.leg with
      | some leg =>
        match leg.data with
        | some d =>
          match d.sog with
          | some dp => dp.value.getD inital_speed
          | none => inital_speed
        | none => inital_speed
      | none => inital_speed
    let dist_between_waypoints := calculate_distance prev.position w.position
    let dist_travel := ship_speed * (vector_time - time_in_transit)
    if dist_travel > dist_between_waypoints then
      position_along_track_walk inital_speed vector_time w rest
        (time_in_transit + dist_between_waypoints / ship_speed)
    else
      calculate_destination_along_track prev.position dist_travel
        (calculate_bearing_between_waypoints prev.position w.position)

/-- `calculate_position_along_track_using_waypoints` (the source indexes
`waypoints[-1]`, so the list is never empty at its call sites; the empty
case is unreachable). -/
def calculate_position_along_track_using_waypoints (waypoints : List Waypoint)
    (inital_speed vector_time : ℝ) : GeoPosition :=
  match waypoints with
  | [] => ⟨0, 0⟩
  | w :: rest => position_along_track_walk inital_speed vector_time w rest 0

/-! ### encounter.py — bearings and classification -/

/-- Closed form of the source's `while beta < 0: beta += 2π` /
`while beta >= 2π: beta -= 2π` normalisation (result in `[0, 2π)`). -/
def wrap_0_to_2_pi (x : ℝ) : ℝ := x - 2 * Real.pi * ⌊x / (2 * Real.pi)⌋

/-- Closed form of the source's `while alpha < -π: alpha += 2π` /
`while alpha >= π: alpha -= 2π` normalisation (result in `[-π, π)`). -/
def wrap_minus_pi_to_pi (x : ℝ) : ℝ := wrap_0_to_2_pi (x + Real.pi) - Real.pi

/-- `calculate_relative_bearing` → `(beta, alpha)`. -/
def calculate_relative_bearing (position_own_ship : GeoPosition) (heading_own_ship : ℝ)
    (position_target_ship : GeoPosition) (heading_target_ship : ℝ)
    (lat_lon0 : GeoPosition) : ℝ × ℝ :=
  let ne_own := llh2flat position_own_ship.lat position_own_ship.lon lat_lon0.lat lat_lon0.lon
  let ne_tgt := llh2flat position_target_ship.lat position_target_ship.lon
    lat_lon0.lat lat_lon0.lon
  let n_own := ne_own.1
  let e_own := ne_own.2
  let n_tgt := ne_tgt.1
  let e_tgt := ne_tgt.2
  let bng_own_ship_target_ship :=
    if e_own = e_tgt then (if n_own ≤ n_tgt then 0 else Real.pi)
    else if e_own < e_tgt then
      (if n_own ≤ n_tgt then
        1 / 2 * Real.pi - Real.arctan (|n_tgt - n_own| / |e_tgt - e_own|)
      else
        1 / 2 * Real.pi + Real.arctan (|n_tgt - n_own| / |e_tgt - e_own|))
    else
      (if n_own ≤ n_tgt then
        3 / 2 * Real.pi + Real.arctan (|n_tgt - n_own| / |e_tgt - e_own|)
      else
        3 / 2 * Real.pi - Real.arctan (|n_tgt - n_own| / |e_tgt - e_own|))
  let bng_target_ship_own_ship := bng_own_ship_target_ship + Real.pi
  let beta := wrap_0_to_2_pi (bng_own_ship_target_ship - heading_own_ship)
  let alpha := wrap_minus_pi_to_pi (bng_target_ship_own_ship - heading_target_ship)
  (beta, alpha)

/-- `calculate_ship_cog` (rounded to 3 decimals, in `[0, 2π)`). -/
def calculate_ship_cog (pos_0 pos_1 lat_lon0 : GeoPosition) : ℝ :=
  let ne_0 := llh2flat pos_0.lat pos_0.lon lat_lon0.lat lat_lon0.lon
  let ne_1 := llh2flat pos_1.lat pos_1.lon lat_lon0.lat lat_lon0.lon
  let cog := arctan2 (ne_1.2 - ne_0.2) (ne_1.1 - ne_0.1)
  let cog := if cog < 0 then cog + 2 * Real.pi else cog
  pyRound cog 3

/-- `alpha_2_pi` branch-cut remapping in `determine_colreg`. -/
def alpha_2_pi (alpha : ℝ) : ℝ := if 0 ≤ alpha then alpha else alpha + 2 * Real.pi

/-- `beta_pi` branch-cut remapping in `determine_colreg`. -/
def beta_pi (beta : ℝ) : ℝ :=
  if 0 ≤ beta ∧ beta ≤ Real.pi then beta else beta - 2 * Real.pi

/-- Numeric tolerance `limit = 0.001` baked into `determine_colreg`. -/
def colreg_limit : ℝ := 0.001

/-- Rule 1 of `determine_colreg` (OVERTAKING_STAND_ON). -/
def rule_overtaking_stand_on (alpha beta theta13_criteria : ℝ) (theta15 : List ℝ) : Prop :=
  beta > theta15.getD 0 0 ∧ beta < theta15.getD 1 0 ∧ |alpha| - theta13_criteria ≤ colreg_limit

/-- Rule 2 of `determine_colreg` (OVERTAKING_GIVE_WAY). -/
def rule_overtaking_give_way (alpha beta theta13_criteria : ℝ) (theta15 : List ℝ) : Prop :=
  alpha_2_pi alpha > theta15.getD 0 0 ∧ alpha_2_pi alpha < theta15.getD 1 0 ∧
    |beta_pi beta| - theta13_criteria ≤ colreg_limit

/-- Rule 3 of `determine_colreg` (HEAD_ON). -/
def rule_head_on (alpha beta theta14_criteria : ℝ) : Prop :=
  |beta_pi beta| - theta14_criteria ≤ colreg_limit ∧ |alpha| - theta14_criteria ≤ colreg_limit

/-- Rule 4 of `determine_colreg` (CROSSING_GIVE_WAY). -/
def rule_crossing_give_way (alpha beta theta15_criteria : ℝ) (theta15 : List ℝ) : Prop :=
  beta > 0 ∧ beta < theta15.getD 0 0 ∧ alpha > -theta15.getD 0 0 ∧
    alpha - theta15_criteria ≤ colreg_limit

/-- Rule 5 of `determine_colreg` (CROSSING_STAND_ON). -/
def rule_crossing_stand_on (alpha beta theta15_criteria : ℝ) (theta15 : List ℝ) : Prop :=
  alpha_2_pi alpha > 0 ∧ alpha_2_pi alpha < theta15.getD 0 0 ∧
    beta_pi beta > -theta15.getD 0 0 ∧ beta_pi beta - theta15_criteria ≤ colreg_limit

/-- `determine_colreg`: first matching rule wins, in the source's order. -/
def determine_colreg (alpha beta theta13_criteria theta14_criteria theta15_criteria : ℝ)
    (theta15 : List ℝ) : EncounterType :=
  if rule_overtaking_stand_on alpha beta theta13_criteria theta15 then
    .OVERTAKING_STAND_ON
  else if rule_overtaking_give_way alpha beta theta13_criteria theta15 then
    .OVERTAKING_GIVE_WAY
  else if rule_head_on alpha beta theta14_criteria then
    .HEAD_ON
  else if rule_crossing_give_way alpha beta theta15_criteria theta15 then
    .CROSSING_GIVE_WAY
  else if rule_crossing_stand_on alpha beta theta15_criteria theta15 then
    .CROSSING_STAND_ON
  else
    .NO_RISK_COLLISION

/-! ### encounter.py — start-position solver -/

/-- `calculate_min_vector_length_target_ship`
(`|np.cross(p2 − p1, p3 − p1) / np.linalg.norm(p2 − p1)|`). -/
def calculate_min_vector_length_target_ship (own_ship_position : GeoPosition)
    (own_ship_cog : ℝ) (target_ship_position_future : GeoPosition)
    (desired_beta : ℝ) (lat_lon0 : GeoPosition) : ℝ :=
  let psi := own_ship_cog + desired_beta
  let p_1 := llh2flat own_ship_position.lat own_ship_position.lon lat_lon0.lat lat_lon0.lon
  let p_3 := llh2flat target_ship_position_future.lat target_ship_position_future.lon
    lat_lon0.lat lat_lon0.lon
  let p_2 : ℝ × ℝ := (p_1.1 + Real.cos psi, p_1.2 + Real.sin psi)
  |((p_2.1 - p_1.1) * (p_3.2 - p_1.2) - (p_2.2 - p_1.2) * (p_3.1 - p_1.1)) /
    Real.sqrt ((p_2.1 - p_1.1) ^ 2 + (p_2.2 - p_1.2) ^ 2)|

/-- Argument record of `find_start_position_target_ship`. -/
structure FspArgs where
  own_ship_position : GeoPosition
  lat_lon0 : GeoPosition
  own_ship_cog : ℝ
  target_ship_position_future : GeoPosition
  target_ship_vector_length : ℝ
  desired_beta : ℝ
  desired_encounter_type : EncounterType
  settings : EncounterSettings

/-- `(n_1, e_1)`: own ship in the local frame. -/
def fsp_n1e1 (g : FspArgs) : ℝ × ℝ :=
  llh2flat g.own_ship_position.lat g.own_ship_position.lon g.lat_lon0.lat g.lat_lon0.lon

/-- `(n_2, e_2)`: target future position in the local frame. -/
def fsp_n2e2 (g : FspArgs) : ℝ × ℝ :=
  llh2flat g.target_ship_position_future.lat g.target_ship_position_future.lon
    g.lat_lon0.lat g.lat_lon0.lon

/-- `psi = own_ship_cog + desired_beta`. -/
def fsp_psi (g : FspArgs) : ℝ := g.own_ship_cog + g.desired_beta

/-- `n_4 = n_1 + cos(psi)`. -/
def fsp_n4 (g : FspArgs) : ℝ := (fsp_n1e1 g).1 + Real.cos (fsp_psi g)

/-- `e_4 = e_1 + sin(psi)`. -/
def fsp_e4 (g : FspArgs) : ℝ := (fsp_n1e1 g).2 + Real.sin (fsp_psi g)

/-- Quadratic coefficient `b` (in the source's exact form). -/
def fsp_b (g : FspArgs) : ℝ :=
  let n_1 := (fsp_n1e1 g).1
  let e_1 := (fsp_n1e1 g).2
  let n_2 := (fsp_n2e2 g).1
  let e_2 := (fsp_n2e2 g).2;
  -2 * e_2 * fsp_e4 g - 2 * n_2 * fsp_n4 g + 2 * e_1 * e_2 + 2 * n_1 * n_2 +
    2 * e_1 * (fsp_e4 g - e_1) + 2 * n_1 * (fsp_n4 g - n_1)

/-- Quadratic coefficient `a`. -/
def fsp_a (g : FspArgs) : ℝ :=
  (fsp_e4 g - (fsp_n1e1 g).2) ^ 2 + (fsp_n4 g - (fsp_n1e1 g).1) ^ 2

/-- Quadratic coefficient `c`. -/
def fsp_c (g : FspArgs) : ℝ :=
  let n_1 := (fsp_n1e1 g).1
  let e_1 := (fsp_n1e1 g).2
  let n_2 := (fsp_n2e2 g).1
  let e_2 := (fsp_n2e2 g).2
  e_2 ^ 2 + n_2 ^ 2 - 2 * e_1 * e_2 - 2 * n_1 * n_2 -
    g.target_ship_vector_length ^ 2 + e_1 ^ 2 + n_1 ^ 2

/-- Discriminant `b² − 4ac`. -/
def fsp_disc (g : FspArgs) : ℝ := fsp_b g ^ 2 - 4 * fsp_a g * fsp_c g

/-- Root `s_1 = (−b + sqrt(b² − 4ac)) / (2a)`. -/
def fsp_s1 (g : FspArgs) : ℝ := (-fsp_b g + Real.sqrt (fsp_disc g)) / (2 * fsp_a g)

/-- Root `s_2 = (−b − sqrt(b² − 4ac)) / (2a)`. -/
def fsp_s2 (g : FspArgs) : ℝ := (-fsp_b g - Real.sqrt (fsp_disc g)) / (2 * fsp_a g)

/-- Candidate start position from root `s` (coordinates rounded to whole
meters, then mapped back to lat/lon). -/
def fsp_pos_of_root (g : FspArgs) (s : ℝ) : GeoPosition :=
  let n_1 := (fsp_n1e1 g).1
  let e_1 := (fsp_n1e1 g).2
  let e_3 := pyRound (e_1 + s * (fsp_e4 g - e_1)) 0
  let n_3 := pyRound (n_1 + s * (fsp_n4 g - n_1)) 0
  let ll := flat2llh n_3 e_3 g.lat_lon0.lat g.lat_lon0.lon
  ⟨ll.1, ll.2⟩

/-- Candidate start position from root `s_1`. -/
def fsp_pos1 (g : FspArgs) : GeoPosition := fsp_pos_of_root g (fsp_s1 g)

/-- Candidate start position from root `s_2`. -/
def fsp_pos2 (g : FspArgs) : GeoPosition := fsp_pos_of_root g (fsp_s2 g)

/-- Resulting course of the candidate at `pos` (toward the future point). -/
def fsp_cog_of (g : FspArgs) (pos : GeoPosition) : ℝ :=
  calculate_ship_cog pos g.target_ship_position_future g.lat_lon0

/-- `(beta, alpha)` of the candidate at `pos`, as seen from own ship. -/
def fsp_bearing_of (g : FspArgs) (pos : GeoPosition) : ℝ × ℝ :=
  calculate_relative_bearing g.own_ship_position g.own_ship_cog pos
    (fsp_cog_of g pos) g.lat_lon0

/-- COLREG classification of the candidate at `pos`. -/
def fsp_state_of (g : FspArgs) (pos : GeoPosition) : EncounterType :=
  determine_colreg (fsp_bearing_of g pos).2 (fsp_bearing_of g pos).1
    g.settings.classification.theta13_criteria g.settings.classification.theta14_criteria
    g.settings.classification.theta15_criteria g.settings.classification.theta15

/-- Acceptance test of the source (`limit = 0.01`): classification equals the
desired type and the wrapped beta difference is below the limit. -/
def fsp_qualifies (g : FspArgs) (pos : GeoPosition) : Prop :=
  g.desired_encounter_type = fsp_state_of g pos ∧
    abs (convert_angle_0_to_2_pi_to_minus_pi_to_pi
      (abs ((fsp_bearing_of g pos).1 - g.desired_beta))) < 0.01

/-- `find_start_position_target_ship` → `(start_position, found)`.
For `b² − 4ac ≤ 0` the conservative fallback `(target_future, False)` is
returned; otherwise the first root (order `s_1` then `s_2`) whose candidate
qualifies is accepted. -/
def find_start_position_target_ship (g : FspArgs) : GeoPosition × Bool :=
  if fsp_disc g ≤ 0 then (g.target_ship_position_future, false)
  else if fsp_qualifies g (fsp_pos1 g) then (fsp_pos1 g, true)
  else if fsp_qualifies g (fsp_pos2 g) then (fsp_pos2 g, true)
  else (g.target_ship_position_future, false)

/-! ### encounter.py — sampling helpers

Each `random.uniform(0, 1)` draw of the source is an explicit argument here
(`u`-values); `random.uniform(a, b)` is `a + (b − a) * u` as in CPython. -/

/-- `assign_future_position_to_target_ship` with its two draws
(`random_angle = u_angle * 2π`, `random_distance = u_distance * max_meeting_distance`). -/
def assign_future_position_to_target_ship (own_ship_position_future lat_lon0 : GeoPosition)
    (max_meeting_distance u_angle u_distance : ℝ) : GeoPosition :=
  let random_angle := u_angle * 2 * Real.pi
  let random_distance := u_distance * max_meeting_distance
  let ne := llh2flat own_ship_position_future.lat own_ship_position_future.lon
    lat_lon0.lat lat_lon0.lon
  let north := ne.1 + random_distance * Real.cos random_angle
  let east := ne.2 + random_distance * Real.sin random_angle
  let ll := flat2llh north east lat_lon0.lat lat_lon0.lon
  ⟨ll.1, ll.2⟩

/-- In-place update `relative_sog[0] = min_target_ship_sog / own_ship_sog`
performed by `assign_sog_to_target_ship` when the ratio lies strictly inside
the range (`encounter.py` lines 825-827). -/
def adjust_relative_sog (relative_sog : List ℝ) (ratio : ℝ) : List ℝ :=
  if ratio > relative_sog.getD 0 0 ∧ ratio < relative_sog.getD 1 0 then
    relative_sog.set 0 ratio
  else relative_sog

/-- Final draw of `assign_sog_to_target_ship`:
`(relative_sog[0] + u * (relative_sog[1] − relative_sog[0])) * own_ship_sog`. -/
def draw_relative_sog (relative_sog : List ℝ) (own_ship_sog u : ℝ) : ℝ :=
  (relative_sog.getD 0 0 + u * (relative_sog.getD 1 0 - relative_sog.getD 0 0)) * own_ship_sog

/-- `assign_sog_to_target_ship`.  In the source, `relative_sog` ALIASES the
list stored in the `EncounterRelativeSpeed` settings object (attribute
access returns the list itself), so the `relative_sog[0] = …` update writes
through to the caller's settings; this is modelled by returning the updated
`EncounterRelativeSpeed` next to the drawn speed.  In the fallback branch
(`NO_RISK_COLLISION`) the source builds a fresh `[0.0, 0.0]` list, so the
settings are returned unchanged. -/
def assign_sog_to_target_ship (encounter_type : EncounterType)
    (own_ship_sog min_target_ship_sog : ℝ)
    (relative_sog_setting : EncounterRelativeSpeed) (u : ℝ) :
    ℝ × EncounterRelativeSpeed :=
  let ratio := min_target_ship_sog / own_ship_sog
  match encounter_type with
  | .OVERTAKING_STAND_ON =>
    let rel := adjust_relative_sog relative_sog_setting.overtaking_stand_on ratio
    (draw_relative_sog rel own_ship_sog u, { relative_sog_setting with overtaking_stand_on := rel })
  | .OVERTAKING_GIVE_WAY =>
    let rel := adjust_relative_sog relative_sog_setting.overtaking_give_way ratio
    (draw_relative_sog rel own_ship_sog u, { relative_sog_setting with overtaking_give_way := rel })
  | .HEAD_ON =>
    let rel := adjust_relative_sog relative_sog_setting.head_on ratio
    (draw_relative_sog rel own_ship_sog u, { relative_sog_setting with head_on := rel })
  | .CROSSING_GIVE_WAY =>
    let rel := adjust_relative_sog relative_sog_setting.crossing_give_way ratio
    (draw_relative_sog rel own_ship_sog u, { relative_sog_setting with crossing_give_way := rel })
  | .CROSSING_STAND_ON =>
    let rel := adjust_relative_sog relative_sog_setting.crossing_stand_on ratio
    (draw_relative_sog rel own_ship_sog u, { relative_sog_setting with crossing_stand_on := rel })
  | .NO_RISK_COLLISION =>
    let rel := adjust_relative_sog [0.0, 0.0] ratio
    (draw_relative_sog rel own_ship_sog u, relative_sog_setting)

/-- `assign_beta_from_list` (the source asserts the list has length 2). -/
def assign_beta_from_list (beta_limit : List ℝ) (u : ℝ) : ℝ :=
  beta_limit.getD 0 0 + u * (beta_limit.getD 1 0 - beta_limit.getD 0 0)

/-- `assign_beta`, returning the value and the advanced stream index
(every branch consumes one `random.uniform(0, 1)` draw except the final
`return 0.0`, which consumes none). -/
def assign_beta (encounter_type : EncounterType)
    (encounter_settings : EncounterSettings) (u : ℕ → ℝ) (ix : ℕ) : ℝ × ℕ :=
  let theta13_crit := encounter_settings.classification.theta13_criteria
  let theta14_crit := encounter_settings.classification.theta14_criteria
  let theta15_crit := encounter_settings.classification.theta15_criteria
  let theta15 := encounter_settings.classification.theta15
  match encounter_type with
  | .OVERTAKING_STAND_ON =>
    (theta15.getD 0 0 + u ix * (theta15.getD 1 0 - theta15.getD 0 0), ix + 1)
  | .OVERTAKING_GIVE_WAY =>
    (-theta13_crit + u ix * (theta13_crit - -theta13_crit), ix + 1)
  | .HEAD_ON =>
    (-theta14_crit + u ix * (theta14_crit - -theta14_crit), ix + 1)
  | .CROSSING_GIVE_WAY =>
    (0 + u ix * (theta15.getD 0 0 - 0), ix + 1)
  | .CROSSING_STAND_ON =>
    (convert_angle_minus_pi_to_pi_to_0_to_2_pi
      (-theta15.getD 1 0 + u ix * (theta15.getD 1 0 + theta15_crit)), ix + 1)
  | .NO_RISK_COLLISION => (0.0, ix)

/-- Placeholder ship used as the (unreachable) `List.getD` default below. -/
def dummy_ship : ShipStatic := ⟨0, none, none, none, none⟩

/-- `decide_target_ship`.  `pick` is the value drawn by
`random.randint(1, len(target_ships_static))`; the element is deep-copied
(`model_copy(deep=True)`), so the caller receives a detached value and the
list element itself is never aliased by the search. -/
def decide_target_ship (target_ships_static : List ShipStatic) (pick : ℕ) : ShipStatic :=
  target_ships_static.getD (pick - 1) dummy_ship

/-- `check_encounter_evolvement`: rewind both ships by `evolve_time`,
reclassify, and require the pre-encounter classification to equal the
desired type.  (Its caller passes own ship's INITIAL position for the
`own_ship_position_future` parameter.) -/
def check_encounter_evolvement (own_ship : OwnShip) (own_ship_cog : ℝ)
    (own_ship_position_future lat_lon0 : GeoPosition)
    (target_ship_sog target_ship_cog : ℝ)
    (target_ship_position_future : GeoPosition)
    (desired_encounter_type : EncounterType)
    (encounter_settings : EncounterSettings) : Bool :=
  let theta13_criteria := encounter_settings.classification.theta13_criteria
  let theta14_criteria := encounter_settings.classification.theta14_criteria
  let theta15_criteria := encounter_settings.classification.theta15_criteria
  let theta15 := encounter_settings.classification.theta15
  let own_ship_sog := own_ship.initial.sog
  let evolve_time := encounter_settings.evolve_time
  let encounter_preposition_target_ship := calculate_position_at_certain_time
    target_ship_position_future lat_lon0 target_ship_sog target_ship_cog (-evolve_time)
  let encounter_preposition_own_ship := calculate_position_at_certain_time
    own_ship_position_future lat_lon0 own_ship_sog own_ship_cog (-evolve_time)
  let ba := calculate_relative_bearing encounter_preposition_own_ship own_ship_cog
    encounter_preposition_target_ship target_ship_cog lat_lon0
  decide (determine_colreg ba.2 ba.1 theta13_criteria theta14_criteria
    theta15_criteria theta15 = desired_encounter_type)

/-! ### check_land_crossing.py

The module in the repository is stale with respect to `types.py` and
`utils.py`:

* its loop runs `for i in range(int(time_interval / num_checks))` with
  `num_checks = 10`, i.e. `int(time_interval / 10)` iterations, NOT 10;
* the loop body builds `Position(north=…, east=…)`, but `types.Position`
  requires fields `x` and `y` (pydantic raises a `ValidationError`), and
  then calls `calculate_position_at_certain_time` with 4 of its 5 required
  arguments (a `TypeError`);

so whenever the loop body runs at least once the call raises before any
land-mask lookup can happen.  The embedding returns `Except.error` for that
case and `Except.ok false` when the loop body never runs. -/

/-- Exception raised by the first loop iteration of `path_crosses_land`. -/
def path_crosses_land_error : String :=
  "ValidationError: Position requires fields x, y; TypeError: calculate_position_at_certain_time missing delta_time"

/-- Number of loop iterations of `path_crosses_land`:
`int(time_interval / num_checks)` with `num_checks = 10`. -/
def num_position_checks (time_interval : ℝ) : ℤ := pyInt (time_interval / 10)

set_option linter.unusedVariables false in
/-- `path_crosses_land` as it stands in the repository. -/
def path_crosses_land (position_north position_east speed course
    lat_0 lon_0 time_interval : ℝ) : Except String Bool :=
  if num_position_checks time_interval ≤ 0 then .ok false
  else .error path_crosses_land_error

/-! ### encounter.py — generate_encounter

The two nested `while` loops (`maximum_loops = 5` each) are embedded as
fuel-bounded recursion; the loop guard `not encounter_found` (and exception
propagation) is checked at the top of every iteration, exactly like the
`while` condition.  The state threads everything the Python loop mutates,
plus the relative-speed lists of the settings object (which
`assign_sog_to_target_ship` writes through, see above), plus two pieces of
instrumentation: `solver_calls` counts the calls to
`find_start_position_target_ship`, and `templates` carries the caller's
`target_ships_static` list (which the source never writes: the id/name
assignments on success go to the deep copy made by `decide_target_ship`). -/

/-- `beta_default : list[float] | float | None`. -/
inductive BetaDefault
  | undef
  | val (v : ℝ)
  | lims (l : List ℝ)

/-- Inputs of `generate_encounter`, with the randomness made explicit.
`geod_fwd` models the external geodesic `pyproj.Geod(ellps="WGS84").fwd`
used by the `TargetShip` constructor: it takes longitude, latitude,
azimuth and distance and returns the forward point `(lon2, lat2)` (the
back azimuth it also returns is unused by the source). -/
structure GenArgs where
  desired_encounter_type : EncounterType
  own_ship : OwnShip
  target_ships_static : List ShipStatic
  encounter_number : ℕ
  beta_default : BetaDefault
  relative_sog_default : Option ℝ
  vector_time_default : Option ℝ
  settings : EncounterSettings
  pick : ℕ
  u : ℕ → ℝ
  geod_fwd : ℝ → ℝ → ℝ → ℝ → ℝ × ℝ

/-- Mutable state of the `generate_encounter` search loops. -/
structure SearchState where
  encounter_found : Bool
  target_ship_initial_position : GeoPosition
  target_ship_sog : ℝ
  target_ship_cog : ℝ
  relative_speed : EncounterRelativeSpeed
  rng : ℕ
  solver_calls : ℕ
  raised : Option String
  templates : List ShipStatic

/-- The settings object as seen after the in-place relative-speed updates. -/
def settings_with (s : EncounterSettings) (rs : EncounterRelativeSpeed) : EncounterSettings :=
  { s with relative_speed := rs }

/-- Placeholder waypoint used as the (unreachable) `List.getD` default. -/
def dummy_waypoint : Waypoint := ⟨⟨0, 0⟩, none, none⟩

/-- Inner `while` loop of `generate_encounter` (`encounter.py` lines
135-202): lock speed, call the solver, validate evolvement and land. -/
def inner_loop (g : GenArgs) (vector_time beta own_ship_cog : ℝ)
    (target_ship_position_future lat_lon0 : GeoPosition) (tmpl : ShipStatic) :
    ℕ → SearchState → SearchState
  | 0, st => st
  | fuel + 1, st =>
    if st.encounter_found ∨ st.raised ≠ none then st else
    let step :=
      match g.relative_sog_default with
      | none =>
        let min_target_ship_sog :=
          calculate_min_vector_length_target_ship g.own_ship.initial.position
            own_ship_cog target_ship_position_future beta lat_lon0 / vector_time
        let sr := assign_sog_to_target_ship g.desired_encounter_type
          g.own_ship.initial.sog min_target_ship_sog st.relative_speed (g.u st.rng)
        (sr.1, sr.2, st.rng + 1)
      | some relative_sog => (relative_sog * g.own_ship.initial.sog, st.relative_speed, st.rng)
    let target_ship_sog := pyRound (min step.1 (tmpl.sog_max.getD 0)) 1
    let target_ship_vector_length := target_ship_sog * vector_time
    let fsp := find_start_position_target_ship
      ⟨g.own_ship.initial.position, lat_lon0, own_ship_cog, target_ship_position_future,
        target_ship_vector_length, beta, g.desired_encounter_type,
        settings_with g.settings step.2.1⟩
    let st' : SearchState :=
      { st with
        target_ship_sog := target_ship_sog
        relative_speed := step.2.1
        rng := step.2.2
        solver_calls := st.solver_calls + 1 }
    if fsp.2 then
      let pos := fsp.1
      let target_ship_cog := calculate_ship_cog pos target_ship_position_future lat_lon0
      let encounter_ok := check_encounter_evolvement g.own_ship own_ship_cog
        g.own_ship.initial.position lat_lon0 target_ship_sog target_ship_cog
        target_ship_position_future g.desired_encounter_type
        (settings_with g.settings step.2.1)
      if g.settings.disable_land_check = false then
        -- The source here calls `path_crosses_land(target_ship_initial_position,
        -- …, lat_lon0, …)` with `GeoPosition` arguments; that function reads
        -- `.north`/`.east` fields a `GeoPosition` does not have and subscripts
        -- `lat_lon0`, so the call raises an `AttributeError` before returning.
        inner_loop g vector_time beta own_ship_cog target_ship_position_future
          lat_lon0 tmpl fuel
          { st' with
            target_ship_initial_position := pos
            target_ship_cog := target_ship_cog
            raised := some "AttributeError: GeoPosition object has no attribute north" }
      else
        inner_loop g vector_time beta own_ship_cog target_ship_position_future
          lat_lon0 tmpl fuel
          { st' with
            target_ship_initial_position := pos
            target_ship_cog := target_ship_cog
            encounter_found := encounter_ok }
    else
      inner_loop g vector_time beta own_ship_cog target_ship_position_future
        lat_lon0 tmpl fuel st'

/-- Outer `while` loop of `generate_encounter` (`encounter.py` lines
98-202): lock vector time and bearing, place the meeting point, then run the
inner loop with a fresh budget of 5. -/
def outer_loop (g : GenArgs) (lat_lon0 : GeoPosition) (tmpl : ShipStatic) :
    ℕ → SearchState → SearchState
  | 0, st => st
  | fuel + 1, st =>
    if st.encounter_found ∨ st.raised ≠ none then st else
    let vt :=
      match g.vector_time_default with
      | none =>
        (g.settings.vector_range.getD 0 0 +
          g.u st.rng * (g.settings.vector_range.getD 1 0 - g.settings.vector_range.getD 0 0),
          st.rng + 1)
      | some vector_time => (vector_time, st.rng)
    let b :=
      match g.beta_default with
      | .undef => assign_beta g.desired_encounter_type
          (settings_with g.settings st.relative_speed) g.u vt.2
      | .lims beta_limit => (assign_beta_from_list beta_limit (g.u vt.2), vt.2 + 1)
      | .val beta => (beta, vt.2)
    let own_ship_cog := calculate_bearing_between_waypoints
      (g.own_ship.waypoints.getD 0 dummy_waypoint).position
      (g.own_ship.waypoints.getD 1 dummy_waypoint).position
    let own_ship_position_future := calculate_position_along_track_using_waypoints
      g.own_ship.waypoints g.own_ship.initial.sog vt.1
    let target_ship_position_future := assign_future_position_to_target_ship
      own_ship_position_future lat_lon0 g.settings.max_meeting_distance
      (g.u b.2) (g.u (b.2 + 1))
    let st' := inner_loop g vt.1 b.1 own_ship_cog target_ship_position_future
      lat_lon0 tmpl 5 { st with rng := b.2 + 2 }
    outer_loop g lat_lon0 tmpl fuel st'

/-- Local-frame origin: own ship's initial position (`encounter.py` 87-90). -/
def gen_lat_lon0 (g : GenArgs) : GeoPosition :=
  ⟨g.own_ship.initial.position.lat, g.own_ship.initial.position.lon⟩

/-- Initial loop state (`encounter.py` lines 76-97). -/
def gen_initial_state (g : GenArgs) : SearchState :=
  { encounter_found := false
    target_ship_initial_position := g.own_ship.initial.position
    target_ship_sog := 0
    target_ship_cog := 0
    relative_speed := g.settings.relative_speed
    rng := 0
    solver_calls := 0
    raised := none
    templates := g.target_ships_static }

/-- The search of `generate_encounter`: both loops, 5 × 5 budget. -/
def generate_encounter_run (g : GenArgs) : SearchState :=
  outer_loop g (gen_lat_lon0 g) (decide_target_ship g.target_ships_static g.pick) 5
    (gen_initial_state g)

/-! ### types.py — the `TargetShip` constructor

`TargetShip(...)` runs `Ship.__init__` (types.py lines 451-454), which,
when the given waypoints are falsy (`None` or `[]`), auto-generates two
waypoints from `initial` via `_generate_waypoints` (lines 456-482), and
then `TargetShip.__init__` (lines 505-508), which defaults a falsy static
name (`None` or `""`) to `"TGT {id}"`. -/

/-- Python truthiness test `not self.static.name`
(`None` and the empty string are falsy). -/
def falsy_name (name : Option String) : Bool :=
  match name with
  | none => true
  | some s => s == ""

/-- `Ship._generate_waypoints` for a present `initial` (types.py lines
461-479): waypoint 0 at the initial position, waypoint 1 at the geodesic
forward point from it at azimuth `cog` and distance
`sog * 0.51444 * 3600 * 3`, computed by the external
`pyproj.Geod(ellps="WGS84").fwd` (modelled by the injected `geod_fwd`,
which returns `(lon2, lat2)`). -/
def generate_waypoints_from_initial (geod_fwd : ℝ → ℝ → ℝ → ℝ → ℝ × ℝ)
    (initial : Initial) : List Waypoint :=
  let ll := geod_fwd initial.position.lon initial.position.lat initial.cog
    (initial.sog * 0.51444 * 3600 * 3)
  [⟨⟨initial.position.lat, initial.position.lon⟩, none, none⟩,
    ⟨⟨ll.2, ll.1⟩, none, none⟩]

/-- The `TargetShip(static=…, initial=…, waypoints=…)` constructor:
`Ship.__init__` replaces falsy waypoints by the auto-generated pair when
`initial` is present (and by `None` otherwise), and `TargetShip.__init__`
defaults a falsy static name to `"TGT {id}"`. -/
def mk_target_ship (geod_fwd : ℝ → ℝ → ℝ → ℝ → ℝ × ℝ) (static : ShipStatic)
    (initial : Option Initial) (waypoints : Option (List Waypoint)) : TargetShip :=
  let waypoints' :=
    match waypoints with
    | some (w :: ws) => some (w :: ws)
    | _ =>
      match initial with
      | some ini => some (generate_waypoints_from_initial geod_fwd ini)
      | none => none
  let static' :=
    if falsy_name static.name then
      { static with name := some ("TGT " ++ toString static.id) }
    else static
  ⟨static', initial, waypoints'⟩

/-- Result assembly of `generate_encounter` (`encounter.py` lines 204-234);
meaningful when the search raised no exception.  On success the id/name are
assigned on the deep copy returned by `decide_target_ship` and the two
computed waypoints are passed to the constructor; on failure the static
data is that copy (name then defaulted by the constructor when falsy),
`initial` is own ship's initial values ("Will not be taken into use") and
`waypoints=None` is passed — whereupon `Ship.__init__` auto-generates two
waypoints from that initial pose. -/
def generate_encounter_result (g : GenArgs) : TargetShip × Bool :=
  let st := generate_encounter_run g
  let tmpl := decide_target_ship g.target_ships_static g.pick
  if st.encounter_found then
    let static' : ShipStatic :=
      { tmpl with id := 10, name := some ("target_ship_" ++ toString g.encounter_number) }
    let target_ship_initial : Initial :=
      ⟨st.target_ship_initial_position, st.target_ship_sog, st.target_ship_cog,
        st.target_ship_cog, some .UNDER_WAY_USING_ENGINE⟩
    let wp0 : Waypoint := ⟨st.target_ship_initial_position, none, none⟩
    let future_position_target_ship := calculate_position_at_certain_time
      st.target_ship_initial_position (gen_lat_lon0 g) st.target_ship_sog
      st.target_ship_cog g.settings.situation_length
    let wp1 : Waypoint := ⟨future_position_target_ship, none, none⟩
    (mk_target_ship g.geod_fwd static' (some target_ship_initial) (some [wp0, wp1]), true)
  else
    (mk_target_ship g.geod_fwd tmpl (some g.own_ship.initial) none, false)

/-- The settings object as left behind by a `generate_encounter` call
(classification and scalar fields are never written; the relative-speed
lists may have been updated in place by `assign_sog_to_target_ship`). -/
def generate_encounter_settings_after (g : GenArgs) : EncounterSettings :=
  settings_with g.settings (generate_encounter_run g).relative_speed

/-! ### Concrete inputs used by witnesses and counterexamples -/

/-- A settings value with the repository's default classification
thresholds (`theta13 = theta14 = 0.087`, `theta15_criteria = 1.22`,
`theta15 = [2.97, 3.40]`). -/
def sample_settings : EncounterSettings :=
  ⟨⟨0.087, 0.087, 1.22, [2.97, 3.4]⟩, ⟨[1, 2], [1, 2], [1, 2], [1, 2], [1, 2]⟩,
    [120, 180], 60, 3600, 100, 300, true⟩

/-- Own ship initial state: at the reference origin, 10 m/s, course 0. -/
def sample_own_initial : Initial := ⟨⟨0, 0⟩, 10, 0, 0, none⟩

/-- Own ship: at the origin with a short eastward two-waypoint track. -/
def sample_own_ship : OwnShip :=
  ⟨dummy_ship, sample_own_initial, [⟨⟨0, 0⟩, none, none⟩, ⟨⟨0, 1 / 100⟩, none, none⟩]⟩

/-- A target-ship template whose maximum speed is zero. -/
def zero_speed_template : ShipStatic := ⟨7, none, some "tmpl", none, some 0⟩

/-- A `generate_encounter` input on which every solver attempt fails:
the template's `sog_max` is 0, so every candidate speed clamps to 0 and the
quadratic has no positive discriminant. -/
def exhaustion_args : GenArgs :=
  ⟨.HEAD_ON, sample_own_ship, [zero_speed_template], 1, .val 0, some (1 / 2),
    some 60, sample_settings, 1, fun _ => 0, fun _ _ _ _ => (0, 0)⟩

/-- Solver input with `target_ship_vector_length = 0` (discriminant ≤ 0):
own ship at the origin heading north, desired beta π/2, target future point
1000 m east of the origin. -/
def degenerate_fsp_args : FspArgs :=
  ⟨⟨0, 0⟩, ⟨0, 0⟩, 0, ⟨0, 1000 / a_radius⟩, 0, Real.pi / 2, .HEAD_ON, sample_settings⟩

/-- Solver input with a solution: own ship at the origin heading north,
desired beta 0 (target dead ahead), target future point 2000 m north,
vector length 500 m; root `s₁ = 2500` puts the target 2500 m north heading
south — a head-on encounter. -/
def solvable_fsp_args : FspArgs :=
  ⟨⟨0, 0⟩, ⟨0, 0⟩, 0, ⟨2000 / r_m 0, 0⟩, 500, 0, .HEAD_ON, sample_settings⟩

end

/-! ## Helper lemmas -/

theorem two_pi_pos : (0 : ℝ) < 2 * Real.pi := by positivity

theorem npMod_eq_fract_mul (x y : ℝ) (hy : y ≠ 0) :
    npMod x y = y * Int.fract (x / y) := by
  unfold npMod Int.fract
  field_simp

theorem ssa_mem (x : ℝ) : -Real.pi ≤ ssa x ∧ ssa x < Real.pi := by
  unfold ssa
  rw [npMod_eq_fract_mul _ _ (ne_of_gt two_pi_pos)]
  constructor
  · have h1 : 0 ≤ 2 * Real.pi * Int.fract ((x + Real.pi) / (2 * Real.pi)) :=
      mul_nonneg two_pi_pos.le (Int.fract_nonneg _)
    linarith
  · have h2 : 2 * Real.pi * Int.fract ((x + Real.pi) / (2 * Real.pi)) < 2 * Real.pi * 1 :=
      (mul_lt_mul_left two_pi_pos).mpr (Int.fract_lt_one _)
    linarith

theorem ssa_sub (x : ℝ) : x - ssa x = 2 * Real.pi * ⌊(x + Real.pi) / (2 * Real.pi)⌋ := by
  unfold ssa npMod
  ring

theorem ssa_eq_self {x : ℝ} (h1 : -Real.pi ≤ x) (h2 : x < Real.pi) : ssa x = x := by
  unfold ssa npMod
  have hf : ⌊(x + Real.pi) / (2 * Real.pi)⌋ = 0 := by
    rw [Int.floor_eq_zero_iff, Set.mem_Ico]
    constructor
    · exact div_nonneg (by linarith) two_pi_pos.le
    · rw [div_lt_one two_pi_pos]
      linarith
  rw [hf]
  push_cast
  ring

theorem e_ecc_sq : e_eccentricity ^ 2 = 2 * f_factor - f_factor ^ 2 := by
  unfold e_eccentricity
  rw [Real.sq_sqrt]
  unfold f_factor
  norm_num

theorem one_sub_e_ecc_sq : 1 - e_eccentricity ^ 2 = (1 - f_factor) ^ 2 := by
  rw [e_ecc_sq]
  ring

theorem e_ecc_sq_lt_one : e_eccentricity ^ 2 < 1 := by
  rw [e_ecc_sq]
  unfold f_factor
  norm_num

theorem radius_denom_pos (lat_0 : ℝ) : 0 < 1 - e_eccentricity ^ 2 * Real.sin lat_0 ^ 2 := by
  have h1 : Real.sin lat_0 ^ 2 ≤ 1 := Real.sin_sq_le_one lat_0
  have h2 : 0 ≤ Real.sin lat_0 ^ 2 := sq_nonneg _
  nlinarith [e_ecc_sq_lt_one, sq_nonneg e_eccentricity]

theorem a_radius_pos : (0 : ℝ) < a_radius := by
  unfold a_radius
  norm_num

theorem r_n_pos (lat_0 : ℝ) : 0 < r_n lat_0 := by
  unfold r_n
  exact div_pos a_radius_pos (Real.sqrt_pos.mpr (radius_denom_pos lat_0))

theorem r_m_pos (lat_0 : ℝ) : 0 < r_m lat_0 := by
  unfold r_m
  refine mul_pos (r_n_pos lat_0) (div_pos ?_ (radius_denom_pos lat_0))
  nlinarith [e_ecc_sq_lt_one]

theorem r_n_zero : r_n 0 = a_radius := by
  unfold r_n
  simp [Real.sin_zero, Real.sqrt_one]

theorem r_m_zero : r_m 0 = a_radius * (1 - e_eccentricity ^ 2) := by
  unfold r_m
  rw [r_n_zero]
  simp [Real.sin_zero]

theorem r_m_zero_gt : (6300000 : ℝ) < r_m 0 := by
  rw [r_m_zero, one_sub_e_ecc_sq]
  unfold a_radius f_factor
  norm_num

theorem r_m_zero_lt : r_m 0 < 6378137 := by
  rw [r_m_zero, one_sub_e_ecc_sq]
  unfold a_radius f_factor
  norm_num

theorem roundHalfEven_int (n : ℤ) : roundHalfEven (n : ℝ) = n := by
  unfold roundHalfEven
  rw [Int.fract_intCast]
  norm_num

theorem pyRound_intCast (n : ℤ) (d : ℕ) : pyRound (n : ℝ) d = n := by
  unfold pyRound
  rw [show ((n : ℝ) * 10 ^ d) = ((n * 10 ^ d : ℤ) : ℝ) by push_cast; ring, roundHalfEven_int]
  push_cast
  rw [mul_div_assoc]
  norm_num

theorem pyRound_zero (d : ℕ) : pyRound 0 d = 0 := by
  have h := pyRound_intCast 0 d
  simpa using h

theorem fsp_disc_nonpos_of_vlen_zero (g : FspArgs)
    (h : g.target_ship_vector_length = 0) : fsp_disc g ≤ 0 := by
  unfold fsp_disc fsp_b fsp_a fsp_c
  rw [h]
  dsimp only
  nlinarith [sq_nonneg (((fsp_n2e2 g).2 - (fsp_n1e1 g).2) * (fsp_n4 g - (fsp_n1e1 g).1) -
    ((fsp_n2e2 g).1 - (fsp_n1e1 g).1) * (fsp_e4 g - (fsp_n1e1 g).2))]

theorem find_start_position_vlen_zero (g : FspArgs)
    (h : g.target_ship_vector_length = 0) :
    find_start_position_target_ship g = (g.target_ship_position_future, false) := by
  unfold find_start_position_target_ship
  rw [if_pos (fsp_disc_nonpos_of_vlen_zero g h)]

/-! ## Loop lemmas -/

theorem inner_loop_step (g : GenArgs) (vt b cog : ℝ) (tf ll : GeoPosition)
    (tmpl : ShipStatic) (n : ℕ) (st : SearchState) :
    inner_loop g vt b cog tf ll tmpl (n + 1) st = st ∨
    ∃ st', inner_loop g vt b cog tf ll tmpl (n + 1) st =
        inner_loop g vt b cog tf ll tmpl n st' ∧
      st'.solver_calls = st.solver_calls + 1 ∧ st'.templates = st.templates := by
  rw [inner_loop]
  split
  · exact Or.inl rfl
  · rcases hrd : g.relative_sog_default with _ | r
    · dsimp only
      split
      · split
        · exact Or.inr ⟨_, rfl, by simp, by simp⟩
        · exact Or.inr ⟨_, rfl, by simp, by simp⟩
      · exact Or.inr ⟨_, rfl, by simp, by simp⟩
    · dsimp only
      split
      · split
        · exact Or.inr ⟨_, rfl, by simp, by simp⟩
        · exact Or.inr ⟨_, rfl, by simp, by simp⟩
      · exact Or.inr ⟨_, rfl, by simp, by simp⟩

theorem inner_loop_calls (g : GenArgs) (vt b cog : ℝ) (tf ll : GeoPosition)
    (tmpl : ShipStatic) :
    ∀ n st, (inner_loop g vt b cog tf ll tmpl n st).solver_calls ≤ st.solver_calls + n := by
  intro n
  induction n with
  | zero => intro st; rw [inner_loop]; omega
  | succ n ih =>
    intro st
    rcases inner_loop_step g vt b cog tf ll tmpl n st with h | ⟨st', heq, hc, _⟩
    · rw [h]; omega
    · rw [heq]
      have := ih st'
      omega

theorem inner_loop_templates (g : GenArgs) (vt b cog : ℝ) (tf ll : GeoPosition)
    (tmpl : ShipStatic) :
    ∀ n st, (inner_loop g vt b cog tf ll tmpl n st).templates = st.templates := by
  intro n
  induction n with
  | zero => intro st; rw [inner_loop]
  | succ n ih =>
    intro st
    rcases inner_loop_step g vt b cog tf ll tmpl n st with h | ⟨st', heq, _, ht⟩
    · rw [h]
    · rw [heq, ih st', ht]

theorem outer_loop_calls (g : GenArgs) (ll : GeoPosition) (tmpl : ShipStatic) :
    ∀ n st, (outer_loop g ll tmpl n st).solver_calls ≤ st.solver_calls + 5 * n := by
  intro n
  induction n with
  | zero => intro st; rw [outer_loop]; omega
  | succ n ih =>
    intro st
    rw [outer_loop]
    split
    · omega
    · dsimp only
      refine le_trans (ih _) (le_trans
        (Nat.add_le_add_right (inner_loop_calls g _ _ _ _ ll tmpl 5 _) (5 * n)) ?_)
      dsimp only
      omega

theorem outer_loop_templates (g : GenArgs) (ll : GeoPosition) (tmpl : ShipStatic) :
    ∀ n st, (outer_loop g ll tmpl n st).templates = st.templates := by
  intro n
  induction n with
  | zero => intro st; rw [outer_loop]
  | succ n ih =>
    intro st
    rw [outer_loop]
    split
    · rfl
    · dsimp only
      rw [ih _, inner_loop_templates]

/-- With a user-fixed relative speed, a nonnegative sampled speed and a
zero-max-speed template, every solver attempt fails (the candidate speed
clamps to 0, so the vector length is 0 and the discriminant is ≤ 0). -/
theorem inner_loop_zero_speed (g : GenArgs) (r : ℝ)
    (hrd : g.relative_sog_default = some r)
    (h0 : 0 ≤ r * g.own_ship.initial.sog)
    (vt b cog : ℝ) (tf ll : GeoPosition) (tmpl : ShipStatic)
    (hs : tmpl.sog_max = some 0) :
    ∀ n st, st.encounter_found = false → st.raised = none →
      (inner_loop g vt b cog tf ll tmpl n st).encounter_found = false ∧
        (inner_loop g vt b cog tf ll tmpl n st).raised = none := by
  intro n
  induction n with
  | zero => intro st h1 h2; rw [inner_loop]; exact ⟨h1, h2⟩
  | succ n ih =>
    intro st h1 h2
    rw [inner_loop]
    rw [if_neg (by simp [h1, h2])]
    rw [hrd]
    dsimp only
    rw [hs]
    have hsog : pyRound (min (r * g.own_ship.initial.sog) ((some (0 : ℝ)).getD 0)) 1 = 0 := by
      rw [Option.getD_some, min_eq_right h0, pyRound_zero]
    rw [hsog, zero_mul]
    rw [find_start_position_vlen_zero _ rfl]
    dsimp only
    exact ih _ h1 h2

/-- Step shape of the outer loop: one iteration either exits or recurses on
the state left by a 5-iteration inner loop. -/
theorem outer_loop_step (g : GenArgs) (ll : GeoPosition) (tmpl : ShipStatic)
    (n : ℕ) (st : SearchState) :
    outer_loop g ll tmpl (n + 1) st = st ∨
    ∃ vt b cog tf R, outer_loop g ll tmpl (n + 1) st =
      outer_loop g ll tmpl n (inner_loop g vt b cog tf ll tmpl 5 { st with rng := R }) := by
  rw [outer_loop]
  split
  · exact Or.inl rfl
  · dsimp only
    exact Or.inr ⟨_, _, _, _, _, rfl⟩

/-- Outer-loop version of `inner_loop_zero_speed`. -/
theorem outer_loop_zero_speed (g : GenArgs) (r : ℝ)
    (hrd : g.relative_sog_default = some r)
    (h0 : 0 ≤ r * g.own_ship.initial.sog)
    (ll : GeoPosition) (tmpl : ShipStatic) (hs : tmpl.sog_max = some 0) :
    ∀ n st, st.encounter_found = false → st.raised = none →
      (outer_loop g ll tmpl n st).encounter_found = false ∧
        (outer_loop g ll tmpl n st).raised = none := by
  intro n
  induction n with
  | zero => intro st h1 h2; rw [outer_loop]; exact ⟨h1, h2⟩
  | succ n ih =>
    intro st h1 h2
    rcases outer_loop_step g ll tmpl n st with h | ⟨vt, b, cog, tf, R, heq⟩
    · rw [h]; exact ⟨h1, h2⟩
    · rw [heq]
      obtain ⟨ha, hb⟩ := inner_loop_zero_speed g r hrd h0 vt b cog tf ll tmpl hs 5
        { st with rng := R } h1 h2
      exact ih _ ha hb

/-! ## Branch-value lemmas for the classification rules -/

theorem theta15_low : ([2.97, 3.4] : List ℝ).getD 0 0 = 2.97 := rfl

theorem theta15_high : ([2.97, 3.4] : List ℝ).getD 1 0 = 3.4 := rfl

theorem alpha_2_pi_of_nonneg {a : ℝ} (h : 0 ≤ a) : alpha_2_pi a = a := by
  unfold alpha_2_pi
  rw [if_pos h]

theorem alpha_2_pi_of_neg {a : ℝ} (h : ¬0 ≤ a) : alpha_2_pi a = a + 2 * Real.pi := by
  unfold alpha_2_pi
  rw [if_neg h]

theorem beta_pi_of_mem {b : ℝ} (h1 : 0 ≤ b) (h2 : b ≤ Real.pi) : beta_pi b = b := by
  unfold beta_pi
  rw [if_pos ⟨h1, h2⟩]

theorem beta_pi_of_not_mem {b : ℝ} (h : ¬(0 ≤ b ∧ b ≤ Real.pi)) :
    beta_pi b = b - 2 * Real.pi := by
  unfold beta_pi
  rw [if_neg h]

/-! ## Claim theorems -/

/-- C2: whenever the quadratic discriminant `b² − 4ac` is ≤ 0,
`find_start_position_target_ship` returns the target future position
unchanged together with `found = false`, never a computed position. -/
theorem C2_disc_nonpos_returns_fallback (g : FspArgs) (h : fsp_disc g ≤ 0) :
    find_start_position_target_ship g = (g.target_ship_position_future, false) := by
  unfold find_start_position_target_ship
  rw [if_pos h]

/-- C2 witness: a concrete degenerate input (vector length 0, so the circle
is a point off the ray and the discriminant is ≤ 0). -/
theorem C2_witness :
    fsp_disc degenerate_fsp_args ≤ 0 ∧
      find_start_position_target_ship degenerate_fsp_args =
        (degenerate_fsp_args.target_ship_position_future, false) :=
  ⟨fsp_disc_nonpos_of_vlen_zero degenerate_fsp_args rfl,
    C2_disc_nonpos_returns_fallback degenerate_fsp_args
      (fsp_disc_nonpos_of_vlen_zero degenerate_fsp_args rfl)⟩

/-- C4: for every input, `generate_encounter` performs at most 25 solver
attempts (calls to `find_start_position_target_ship`): the outer loop runs
at most 5 iterations and the inner loop at most 5 per outer iteration. -/
theorem C4_at_most_25_solver_calls (g : GenArgs) :
    (generate_encounter_run g).solver_calls ≤ 25 := by
  unfold generate_encounter_run
  have h := outer_loop_calls g (gen_lat_lon0 g)
    (decide_target_ship g.target_ships_static g.pick) 5 (gen_initial_state g)
  simpa [gen_initial_state] using h

/-- C5 (amended): whenever `generate_encounter` exhausts its retries
without success (and without raising), it returns `found = false` together
with the `TargetShip` that the constructor builds from: the selected
template's deep copy (its name defaulted to `"TGT {id}"` by
`TargetShip.__init__` when unset or empty, otherwise the static data
unchanged), `initial` set to OWN ship's initial state as a placeholder
(the source comment: "using initial values from own ship. Will not be
taken into use"), and `waypoints = None` — which `Ship.__init__` then
auto-populates with two waypoints generated from that initial pose. -/
theorem C5_exhaustion_result (g : GenArgs) :
    (generate_encounter_run g).raised ≠ none ∨
    (generate_encounter_run g).encounter_found = true ∨
    generate_encounter_result g =
      (⟨(if falsy_name (decide_target_ship g.target_ships_static g.pick).name then
            { decide_target_ship g.target_ships_static g.pick with
              name := some ("TGT " ++
                toString (decide_target_ship g.target_ships_static g.pick).id) }
          else decide_target_ship g.target_ships_static g.pick),
        some g.own_ship.initial,
        some (generate_waypoints_from_initial g.geod_fwd g.own_ship.initial)⟩,
        false) := by
  by_cases hf : (generate_encounter_run g).encounter_found = true
  · exact Or.inr (Or.inl hf)
  · refine Or.inr (Or.inr ?_)
    unfold generate_encounter_result
    rw [if_neg hf]
    rfl

/-- C5 counterexample (to the claim as stated): a concrete exhausting run
(every attempt fails because the template's maximum speed is 0) on which
the returned `TargetShip` has `initial` POPULATED with own ship's initial
state and `waypoints` POPULATED with the two waypoints the `TargetShip`
constructor auto-generates from it (types.py `Ship.__init__`) — neither is
left empty as the claim says. -/
theorem C5_counterexample :
    generate_encounter_result exhaustion_args =
      (⟨zero_speed_template, some sample_own_initial,
        some (generate_waypoints_from_initial exhaustion_args.geod_fwd
          sample_own_initial)⟩, false) ∧
    (generate_encounter_result exhaustion_args).1.initial ≠ none ∧
    (generate_encounter_result exhaustion_args).1.waypoints ≠ none := by
  have hfound : (generate_encounter_run exhaustion_args).encounter_found = false := by
    unfold generate_encounter_run
    exact (outer_loop_zero_speed exhaustion_args (1 / 2) rfl
      (by norm_num [exhaustion_args, sample_own_ship, sample_own_initial])
      (gen_lat_lon0 exhaustion_args)
      (decide_target_ship exhaustion_args.target_ships_static exhaustion_args.pick)
      rfl 5 (gen_initial_state exhaustion_args) rfl rfl).1
  have hres : generate_encounter_result exhaustion_args =
      (⟨zero_speed_template, some sample_own_initial,
        some (generate_waypoints_from_initial exhaustion_args.geod_fwd
          sample_own_initial)⟩, false) := by
    unfold generate_encounter_result
    rw [if_neg (by rw [hfound]; exact Bool.false_ne_true)]
    rfl
  refine ⟨hres, by rw [hres]; simp, by rw [hres]; simp⟩

/-- C6 (code bug): `assign_sog_to_target_ship` writes the speed-ratio lower
bound through to the relative-speed list of the settings (in the source the
list is aliased, so the caller's `EncounterSettings` is mutated in place):
with `head_on = [0.5, 2.0]`, own speed 10 and minimum target speed 10, the
settings value after the call differs from the one before. -/
theorem C6_assign_sog_mutates_settings :
    (assign_sog_to_target_ship .HEAD_ON 10 10
        ⟨[1 / 2, 2], [1 / 2, 2], [1 / 2, 2], [1 / 2, 2], [1 / 2, 2]⟩ 0).2.head_on =
      [1, 2] ∧
    (assign_sog_to_target_ship .HEAD_ON 10 10
        ⟨[1 / 2, 2], [1 / 2, 2], [1 / 2, 2], [1 / 2, 2], [1 / 2, 2]⟩ 0).2 ≠
      ⟨[1 / 2, 2], [1 / 2, 2], [1 / 2, 2], [1 / 2, 2], [1 / 2, 2]⟩ := by
  have hadj : adjust_relative_sog [1 / 2, 2] ((10 : ℝ) / 10) = [10 / 10, 2] := by
    unfold adjust_relative_sog
    rw [if_pos (by norm_num [List.getD])]
    rfl
  have hho : (assign_sog_to_target_ship .HEAD_ON 10 10
      ⟨[1 / 2, 2], [1 / 2, 2], [1 / 2, 2], [1 / 2, 2], [1 / 2, 2]⟩ 0).2.head_on = [1, 2] := by
    unfold assign_sog_to_target_ship
    dsimp only
    rw [hadj]
    norm_num
  refine ⟨hho, fun heq => ?_⟩
  have h2 := congrArg EncounterRelativeSpeed.head_on heq
  rw [hho] at h2
  simp at h2

theorem ssa_eq_sub_two_pi {x : ℝ} (h1 : Real.pi ≤ x) (h2 : x < 3 * Real.pi) :
    ssa x = x - 2 * Real.pi := by
  unfold ssa npMod
  have hf : ⌊(x + Real.pi) / (2 * Real.pi)⌋ = 1 := by
    rw [Int.floor_eq_iff]
    push_cast
    constructor
    · rw [le_div_iff₀ two_pi_pos]
      linarith
    · rw [div_lt_iff₀ two_pi_pos]
      linarith
  rw [hf]
  push_cast
  ring

/-- C7 (amended): `llh2flat` exactly inverts `flat2llh` (in real
arithmetic) for every reference point with `|lat0| < π/2`, provided the
computed latitude and longitude do not cross the ±π branch cut at which
`ssa` wraps; when the wrap fires, the round-trip fails (see the
counterexample), so the wrap conditions must be added to the claim. -/
theorem C7_roundtrip_exact (x_n y_n lat_0 lon_0 : ℝ)
    (hlat : |lat_0| < Real.pi / 2)
    (h1 : -Real.pi ≤ lat_0 + x_n / r_m lat_0)
    (h2 : lat_0 + x_n / r_m lat_0 < Real.pi)
    (h3 : -Real.pi ≤ lon_0 + y_n / (r_n lat_0 * Real.cos lat_0))
    (h4 : lon_0 + y_n / (r_n lat_0 * Real.cos lat_0) < Real.pi) :
    llh2flat (flat2llh x_n y_n lat_0 lon_0).1 (flat2llh x_n y_n lat_0 lon_0).2
      lat_0 lon_0 = (x_n, y_n) := by
  obtain ⟨hl1, hl2⟩ := abs_lt.mp hlat
  have hcos : 0 < Real.cos lat_0 := Real.cos_pos_of_mem_Ioo ⟨by linarith, hl2⟩
  unfold flat2llh llh2flat
  dsimp only
  rw [ssa_eq_self h1 h2, ssa_eq_self h3 h4]
  rw [show lat_0 + x_n / r_m lat_0 - lat_0 = x_n / r_m lat_0 by ring]
  rw [show lon_0 + y_n / (r_n lat_0 * Real.cos lat_0) - lon_0 =
    y_n / (r_n lat_0 * Real.cos lat_0) by ring]
  rw [div_mul_cancel₀ _ (ne_of_gt (r_m_pos lat_0)),
    div_mul_cancel₀ _ (ne_of_gt (mul_pos (r_n_pos lat_0) hcos))]

/-- C7 witness: an exact round trip of the offset (1000 m, 1000 m) at the
reference point (0, 0). -/
theorem C7_witness :
    llh2flat (flat2llh 1000 1000 0 0).1 (flat2llh 1000 1000 0 0).2 0 0 =
      ((1000 : ℝ), (1000 : ℝ)) := by
  have hpi3 := Real.pi_gt_three
  have hrm1 := r_m_zero_gt
  have hrm : (0 : ℝ) < 1000 / r_m 0 := div_pos (by norm_num) (by linarith)
  have hrm2 : 1000 / r_m 0 < 1 := (div_lt_one (by linarith)).mpr (by linarith)
  have hde : r_n 0 * Real.cos 0 = a_radius := by
    rw [r_n_zero, Real.cos_zero, mul_one]
  have hra : (0 : ℝ) < 1000 / (r_n 0 * Real.cos 0) := by
    rw [hde]
    exact div_pos (by norm_num) a_radius_pos
  have hra2 : 1000 / (r_n 0 * Real.cos 0) < 1 := by
    rw [hde]
    unfold a_radius
    rw [div_lt_one (by norm_num)]
    norm_num
  exact C7_roundtrip_exact 1000 1000 0 0
    (by rw [abs_zero]; linarith)
    (by rw [zero_add]; linarith)
    (by rw [zero_add]; linarith)
    (by rw [zero_add]; linarith)
    (by rw [zero_add]; linarith)

/-- C7 counterexample: at reference point `(lat0, lon0) = (0, 3.13)` (with
`|lat0| < π/2`) and offset `(north, east) = (0, 100000)` — only 100 km —
the computed longitude wraps past π, and the round trip returns an east
coordinate that is off by `2π · a_radius ≈ 4·10⁷ m`, far outside the
claimed 1e-6 relative tolerance. -/
theorem C7_counterexample :
    (llh2flat (flat2llh 0 100000 0 3.13).1 (flat2llh 0 100000 0 3.13).2 0 3.13).2 -
        100000 = -(2 * Real.pi * a_radius) ∧
    |(llh2flat (flat2llh 0 100000 0 3.13).1 (flat2llh 0 100000 0 3.13).2 0 3.13).2 -
        100000| > 0.000001 * 100000 := by
  have hpilo := Real.pi_gt_d6
  have hpihi := Real.pi_lt_d6
  have hd1 : (0.0156 : ℝ) < 100000 / a_radius := by
    unfold a_radius
    rw [lt_div_iff₀ (by norm_num)]
    norm_num
  have hd2 : (100000 : ℝ) / a_radius < 0.0157 := by
    unfold a_radius
    rw [div_lt_iff₀ (by norm_num)]
    norm_num
  have hcore : (llh2flat (flat2llh 0 100000 0 3.13).1 (flat2llh 0 100000 0 3.13).2
      0 3.13).2 = 100000 - 2 * Real.pi * a_radius := by
    unfold flat2llh llh2flat
    dsimp only
    rw [r_n_zero, Real.cos_zero, mul_one]
    rw [ssa_eq_sub_two_pi (by linarith) (by linarith)]
    rw [show (3.13 : ℝ) + 100000 / a_radius - 2 * Real.pi - 3.13 =
      100000 / a_radius - 2 * Real.pi by ring]
    rw [sub_mul, div_mul_cancel₀ _ (ne_of_gt a_radius_pos)]
  constructor
  · rw [hcore]
    ring
  · rw [hcore]
    rw [show (100000 : ℝ) - 2 * Real.pi * a_radius - 100000 =
      -(2 * Real.pi * a_radius) by ring]
    rw [abs_neg, abs_of_pos (mul_pos two_pi_pos a_radius_pos)]
    unfold a_radius
    nlinarith

/-! ## Evaluation lemmas for the solver witness -/

theorem wrap_0_to_2_pi_eq_self {x : ℝ} (h1 : 0 ≤ x) (h2 : x < 2 * Real.pi) :
    wrap_0_to_2_pi x = x := by
  unfold wrap_0_to_2_pi
  have hf : ⌊x / (2 * Real.pi)⌋ = 0 := by
    rw [Int.floor_eq_zero_iff, Set.mem_Ico]
    exact ⟨div_nonneg h1 two_pi_pos.le, (div_lt_one two_pi_pos).mpr h2⟩
  rw [hf]
  push_cast
  ring

theorem wrap_minus_pi_to_pi_eq_self {x : ℝ} (h1 : -Real.pi ≤ x) (h2 : x < Real.pi) :
    wrap_minus_pi_to_pi x = x := by
  unfold wrap_minus_pi_to_pi
  rw [wrap_0_to_2_pi_eq_self (by linarith) (by linarith)]
  ring

theorem arctan2_zero_of_neg_x {x : ℝ} (hx : x < 0) : arctan2 0 x = Real.pi := by
  unfold arctan2
  rw [if_neg (by linarith), if_pos hx, if_pos le_rfl, zero_div, Real.arctan_zero, zero_add]

theorem llh2flat_origin (lat lon : ℝ) :
    llh2flat lat lon 0 0 = (lat * r_m 0, lon * a_radius) := by
  unfold llh2flat
  rw [r_n_zero, Real.cos_zero, mul_one, sub_zero, sub_zero]

theorem flat2llh_origin (n e : ℝ) :
    flat2llh n e 0 0 = (ssa (n / r_m 0), ssa (e / a_radius)) := by
  unfold flat2llh
  dsimp only
  rw [r_n_zero, Real.cos_zero, mul_one, zero_add, zero_add]

theorem pyRound_pi_3 : pyRound Real.pi 3 = 3142 / 1000 := by
  have hlo := Real.pi_gt_d6
  have hhi := Real.pi_lt_d6
  unfold pyRound roundHalfEven
  have hx : Real.pi * 10 ^ 3 = 1000 * Real.pi := by ring
  rw [hx]
  have hfl : ⌊(1000 : ℝ) * Real.pi⌋ = 3141 := by
    rw [Int.floor_eq_iff]
    push_cast
    constructor
    · linarith
    · linarith
  have hfr : Int.fract ((1000 : ℝ) * Real.pi) ≠ 1 / 2 := by
    unfold Int.fract
    rw [hfl]
    push_cast
    intro h
    linarith
  rw [if_neg hfr, round_eq]
  have hup : ⌊(1000 : ℝ) * Real.pi + 1 / 2⌋ = 3142 := by
    rw [Int.floor_eq_iff]
    push_cast
    constructor
    · linarith
    · linarith
  rw [hup]
  norm_num

theorem sfa_n1e1 : fsp_n1e1 solvable_fsp_args = (0, 0) := by
  unfold fsp_n1e1 solvable_fsp_args
  dsimp only
  rw [llh2flat_origin]
  simp

theorem sfa_n2e2 : fsp_n2e2 solvable_fsp_args = (2000, 0) := by
  unfold fsp_n2e2 solvable_fsp_args
  dsimp only
  rw [llh2flat_origin, div_mul_cancel₀ _ (ne_of_gt (r_m_pos 0))]
  simp

theorem sfa_psi : fsp_psi solvable_fsp_args = 0 := by
  unfold fsp_psi solvable_fsp_args
  dsimp only
  ring

theorem sfa_n4 : fsp_n4 solvable_fsp_args = 1 := by
  unfold fsp_n4
  rw [sfa_n1e1, sfa_psi, Real.cos_zero]
  norm_num

theorem sfa_e4 : fsp_e4 solvable_fsp_args = 0 := by
  unfold fsp_e4
  rw [sfa_n1e1, sfa_psi, Real.sin_zero]
  norm_num

theorem sfa_b : fsp_b solvable_fsp_args = -4000 := by
  unfold fsp_b
  rw [sfa_n1e1, sfa_n2e2, sfa_e4, sfa_n4]
  norm_num

theorem sfa_a : fsp_a solvable_fsp_args = 1 := by
  unfold fsp_a
  rw [sfa_n1e1, sfa_e4, sfa_n4]
  norm_num

theorem sfa_c : fsp_c solvable_fsp_args = 3750000 := by
  unfold fsp_c
  rw [sfa_n1e1, sfa_n2e2]
  dsimp only [solvable_fsp_args]
  norm_num

theorem sfa_disc : fsp_disc solvable_fsp_args = 1000000 := by
  unfold fsp_disc
  rw [sfa_b, sfa_a, sfa_c]
  norm_num

theorem sfa_s1 : fsp_s1 solvable_fsp_args = 2500 := by
  unfold fsp_s1
  rw [sfa_b, sfa_a, sfa_disc]
  rw [show (1000000 : ℝ) = 1000 ^ 2 by norm_num,
    Real.sqrt_sq (by norm_num : (0 : ℝ) ≤ 1000)]
  norm_num

theorem sfa_pos1 : fsp_pos1 solvable_fsp_args = ⟨2500 / r_m 0, 0⟩ := by
  have hrm := r_m_zero_gt
  have hpi3 := Real.pi_gt_three
  unfold fsp_pos1 fsp_pos_of_root
  rw [sfa_n1e1, sfa_s1, sfa_e4, sfa_n4]
  dsimp only [solvable_fsp_args]
  rw [show (0 : ℝ) + 2500 * (0 - 0) = ((0 : ℤ) : ℝ) by norm_num]
  rw [show (0 : ℝ) + 2500 * (1 - 0) = ((2500 : ℤ) : ℝ) by norm_num]
  rw [pyRound_intCast, pyRound_intCast]
  push_cast
  rw [flat2llh_origin]
  dsimp only
  have hq : (0 : ℝ) < 2500 / r_m 0 := div_pos (by norm_num) (by linarith)
  have hq2 : (2500 : ℝ) / r_m 0 < 1 := (div_lt_one (by linarith)).mpr (by linarith)
  rw [zero_div, ssa_eq_self (by linarith) (by linarith),
    ssa_eq_self (by linarith) (by linarith)]

theorem sfa_cog1 : fsp_cog_of solvable_fsp_args ⟨2500 / r_m 0, 0⟩ = 3142 / 1000 := by
  unfold fsp_cog_of calculate_ship_cog
  dsimp only [solvable_fsp_args]
  rw [llh2flat_origin, llh2flat_origin]
  rw [div_mul_cancel₀ _ (ne_of_gt (r_m_pos 0)), div_mul_cancel₀ _ (ne_of_gt (r_m_pos 0))]
  dsimp only
  rw [show (0 : ℝ) * a_radius - 0 * a_radius = 0 by ring]
  rw [show (2000 : ℝ) - 2500 = -500 by norm_num]
  rw [arctan2_zero_of_neg_x (by norm_num)]
  rw [if_neg (not_lt.mpr Real.pi_pos.le)]
  exact pyRound_pi_3

theorem sfa_bearing : fsp_bearing_of solvable_fsp_args ⟨2500 / r_m 0, 0⟩ =
    (0, Real.pi - 3142 / 1000) := by
  have hpilo := Real.pi_gt_d6
  unfold fsp_bearing_of
  rw [sfa_cog1]
  unfold calculate_relative_bearing
  dsimp only [solvable_fsp_args]
  rw [llh2flat_origin, llh2flat_origin]
  rw [div_mul_cancel₀ _ (ne_of_gt (r_m_pos 0))]
  rw [zero_mul, zero_mul]
  dsimp only
  rw [if_pos rfl, if_pos (by norm_num : (0 : ℝ) ≤ 2500)]
  rw [show (0 : ℝ) - 0 = 0 by ring]
  rw [wrap_0_to_2_pi_eq_self le_rfl two_pi_pos]
  rw [show (0 : ℝ) + Real.pi - 3142 / 1000 = Real.pi - 3142 / 1000 by ring]
  rw [wrap_minus_pi_to_pi_eq_self (by linarith) (by linarith)]

theorem sfa_state : fsp_state_of solvable_fsp_args ⟨2500 / r_m 0, 0⟩ =
    EncounterType.HEAD_ON := by
  have hpilo := Real.pi_gt_d6
  have hpihi := Real.pi_lt_d6
  have hneg : Real.pi - 3142 / 1000 < 0 := by linarith
  unfold fsp_state_of
  rw [sfa_bearing]
  dsimp only [solvable_fsp_args, sample_settings]
  unfold determine_colreg
  rw [if_neg, if_neg, if_pos]
  · exact ⟨by rw [beta_pi_of_mem le_rfl Real.pi_pos.le]; unfold colreg_limit; norm_num,
      by rw [abs_of_neg hneg]; unfold colreg_limit; linarith⟩
  · intro h2
    rw [rule_overtaking_give_way, alpha_2_pi_of_neg (not_le.mpr hneg)] at h2
    rw [theta15_high] at h2
    linarith [h2.2.1]
  · intro h1
    rw [rule_overtaking_stand_on, theta15_low] at h1
    linarith [h1.1]

theorem sfa_qual1 : fsp_qualifies solvable_fsp_args (fsp_pos1 solvable_fsp_args) := by
  unfold fsp_qualifies
  rw [sfa_pos1, sfa_state, sfa_bearing]
  constructor
  · rfl
  · dsimp only [solvable_fsp_args]
    rw [show (0 : ℝ) - 0 = 0 by ring, abs_zero]
    unfold convert_angle_0_to_2_pi_to_minus_pi_to_pi
    rw [if_pos ⟨le_rfl, Real.pi_pos.le⟩, abs_zero]
    norm_num

theorem sfa_found : find_start_position_target_ship solvable_fsp_args =
    (fsp_pos1 solvable_fsp_args, true) := by
  unfold find_start_position_target_ship
  rw [if_neg (by rw [sfa_disc]; norm_num), if_pos sfa_qual1]

/-- C1: whenever `find_start_position_target_ship` returns `found = true`,
the returned start position satisfies the request — recomputing the target
course from that position toward the future point, then the relative
bearing and COLREG classification against own ship, yields the desired
encounter type, and the beta difference from the desired beta (wrapped via
the (−π, π] conversion) is below 0.01 rad; moreover the accepted root is
the first qualifying one in the fixed order `s₁` then `s₂`. -/
theorem C1_solver_postcondition (g : FspArgs)
    (h : (find_start_position_target_ship g).2 = true) :
    g.desired_encounter_type = fsp_state_of g (find_start_position_target_ship g).1 ∧
    abs (convert_angle_0_to_2_pi_to_minus_pi_to_pi
      (abs ((fsp_bearing_of g (find_start_position_target_ship g).1).1 -
        g.desired_beta))) < 0.01 ∧
    ((fsp_qualifies g (fsp_pos1 g) ∧ (find_start_position_target_ship g).1 = fsp_pos1 g) ∨
      (¬fsp_qualifies g (fsp_pos1 g) ∧ fsp_qualifies g (fsp_pos2 g) ∧
        (find_start_position_target_ship g).1 = fsp_pos2 g)) := by
  by_cases hd : fsp_disc g ≤ 0
  · exfalso
    have hfb : find_start_position_target_ship g = (g.target_ship_position_future, false) := by
      unfold find_start_position_target_ship
      rw [if_pos hd]
    rw [hfb] at h
    simp at h
  · by_cases h1 : fsp_qualifies g (fsp_pos1 g)
    · have heq : find_start_position_target_ship g = (fsp_pos1 g, true) := by
        unfold find_start_position_target_ship
        rw [if_neg hd, if_pos h1]
      rw [heq]
      exact ⟨h1.1, h1.2, Or.inl ⟨h1, rfl⟩⟩
    · by_cases h2 : fsp_qualifies g (fsp_pos2 g)
      · have heq : find_start_position_target_ship g = (fsp_pos2 g, true) := by
          unfold find_start_position_target_ship
          rw [if_neg hd, if_neg h1, if_pos h2]
        rw [heq]
        exact ⟨h2.1, h2.2, Or.inr ⟨h1, h2, rfl⟩⟩
      · exfalso
        have hfb : find_start_position_target_ship g =
            (g.target_ship_position_future, false) := by
          unfold find_start_position_target_ship
          rw [if_neg hd, if_neg h1, if_neg h2]
        rw [hfb] at h
        simp at h

/-- C1 witness: the concrete head-on input of `solvable_fsp_args` —
own ship at the origin heading north, desired beta 0, future point 2000 m
north, vector length 500 m — on which the solver returns found = true (with
root `s₁ = 2500`) and the postcondition holds. -/
theorem C1_witness :
    (find_start_position_target_ship solvable_fsp_args).2 = true ∧
    (solvable_fsp_args.desired_encounter_type =
        fsp_state_of solvable_fsp_args (find_start_position_target_ship solvable_fsp_args).1 ∧
      abs (convert_angle_0_to_2_pi_to_minus_pi_to_pi
        (abs ((fsp_bearing_of solvable_fsp_args
            (find_start_position_target_ship solvable_fsp_args).1).1 -
          solvable_fsp_args.desired_beta))) < 0.01 ∧
      ((fsp_qualifies solvable_fsp_args (fsp_pos1 solvable_fsp_args) ∧
          (find_start_position_target_ship solvable_fsp_args).1 =
            fsp_pos1 solvable_fsp_args) ∨
        (¬fsp_qualifies solvable_fsp_args (fsp_pos1 solvable_fsp_args) ∧
          fsp_qualifies solvable_fsp_args (fsp_pos2 solvable_fsp_args) ∧
          (find_start_position_target_ship solvable_fsp_args).1 =
            fsp_pos2 solvable_fsp_args))) := by
  have hfound : (find_start_position_target_ship solvable_fsp_args).2 = true := by
    rw [sfa_found]
  exact ⟨hfound, C1_solver_postcondition solvable_fsp_args hfound⟩

/-- C3 counterexample: at the default thresholds the in-domain pair
`(alpha, beta) = (0.5, 0.5)` satisfies the conditions of BOTH rule 4
(crossing give-way) and rule 5 (crossing stand-on), so the five rules of
`determine_colreg` are not mutually exclusive. -/
theorem C3_counterexample :
    rule_crossing_give_way 0.5 0.5 1.22 [2.97, 3.4] ∧
    rule_crossing_stand_on 0.5 0.5 1.22 [2.97, 3.4] ∧
    EncounterType.CROSSING_GIVE_WAY ≠ EncounterType.CROSSING_STAND_ON ∧
    (-Real.pi ≤ (0.5 : ℝ) ∧ (0.5 : ℝ) < Real.pi) ∧
    ((0 : ℝ) ≤ 0.5 ∧ (0.5 : ℝ) < 2 * Real.pi) := by
  have hpi3 := Real.pi_gt_three
  have ha : alpha_2_pi 0.5 = 0.5 := alpha_2_pi_of_nonneg (by norm_num)
  have hb : beta_pi 0.5 = 0.5 := beta_pi_of_mem (by norm_num) (by linarith)
  refine ⟨?_, ?_, by decide, ⟨by linarith, by linarith⟩, ⟨by norm_num, by linarith⟩⟩
  · unfold rule_crossing_give_way
    rw [theta15_low]
    unfold colreg_limit
    norm_num
  · unfold rule_crossing_stand_on
    rw [theta15_low, ha, hb]
    unfold colreg_limit
    norm_num

/-- C3 (amended): the five rules of `determine_colreg` are NOT mutually
exclusive at the default thresholds.  The rule pairs (1,2), (1,3), (1,4),
(2,3) and (2,5) are exclusive for all angles, but each of the pairs (1,5),
(2,4), (3,4), (3,5) and (4,5) is satisfied simultaneously by some in-domain
pair of angles, so the classification depends on the fixed rule ordering. -/
theorem C3_rule_exclusivity_characterization :
    (∀ a b : ℝ, ¬rule_overtaking_stand_on a b 0.087 [2.97, 3.4] ∨
      ¬rule_overtaking_give_way a b 0.087 [2.97, 3.4]) ∧
    (∀ a b : ℝ, ¬rule_overtaking_stand_on a b 0.087 [2.97, 3.4] ∨
      ¬rule_head_on a b 0.087) ∧
    (∀ a b : ℝ, ¬rule_overtaking_stand_on a b 0.087 [2.97, 3.4] ∨
      ¬rule_crossing_give_way a b 1.22 [2.97, 3.4]) ∧
    (∀ a b : ℝ, ¬rule_overtaking_give_way a b 0.087 [2.97, 3.4] ∨
      ¬rule_head_on a b 0.087) ∧
    (∀ a b : ℝ, ¬rule_overtaking_give_way a b 0.087 [2.97, 3.4] ∨
      ¬rule_crossing_stand_on a b 1.22 [2.97, 3.4]) ∧
    (∃ a b : ℝ, (-Real.pi ≤ a ∧ a < Real.pi ∧ 0 ≤ b ∧ b < 2 * Real.pi) ∧
      rule_overtaking_stand_on a b 0.087 [2.97, 3.4] ∧
      rule_crossing_stand_on a b 1.22 [2.97, 3.4]) ∧
    (∃ a b : ℝ, (-Real.pi ≤ a ∧ a < Real.pi ∧ 0 ≤ b ∧ b < 2 * Real.pi) ∧
      rule_overtaking_give_way a b 0.087 [2.97, 3.4] ∧
      rule_crossing_give_way a b 1.22 [2.97, 3.4]) ∧
    (∃ a b : ℝ, (-Real.pi ≤ a ∧ a < Real.pi ∧ 0 ≤ b ∧ b < 2 * Real.pi) ∧
      rule_head_on a b 0.087 ∧ rule_crossing_give_way a b 1.22 [2.97, 3.4]) ∧
    (∃ a b : ℝ, (-Real.pi ≤ a ∧ a < Real.pi ∧ 0 ≤ b ∧ b < 2 * Real.pi) ∧
      rule_head_on a b 0.087 ∧ rule_crossing_stand_on a b 1.22 [2.97, 3.4]) ∧
    (∃ a b : ℝ, (-Real.pi ≤ a ∧ a < Real.pi ∧ 0 ≤ b ∧ b < 2 * Real.pi) ∧
      rule_crossing_give_way a b 1.22 [2.97, 3.4] ∧
      rule_crossing_stand_on a b 1.22 [2.97, 3.4]) := by
  have hpi3 := Real.pi_gt_three
  have hpilo := Real.pi_gt_d6
  have hpihi := Real.pi_lt_d6
  have h005a : alpha_2_pi 0.05 = 0.05 := alpha_2_pi_of_nonneg (by norm_num)
  have h005b : beta_pi 0.05 = 0.05 := beta_pi_of_mem (by norm_num) (by linarith)
  have habs005 : |(0.05 : ℝ)| = 0.05 := abs_of_pos (by norm_num)
  refine ⟨?_, ?_, ?_, ?_, ?_, ?_, ?_, ?_, ?_, ?_⟩
  · -- rules 1 and 2 exclusive
    intro a b
    refine not_and_or.mp ?_
    rintro ⟨h1, h2⟩
    unfold rule_overtaking_stand_on at h1
    unfold rule_overtaking_give_way at h2
    rw [theta15_low, theta15_high] at h1 h2
    unfold colreg_limit at h1 h2
    obtain ⟨-, -, hA⟩ := h1
    obtain ⟨hA1, hA2, -⟩ := h2
    obtain ⟨ha1, ha2⟩ := abs_le.mp (by linarith : |a| ≤ 0.088)
    by_cases hnn : 0 ≤ a
    · rw [alpha_2_pi_of_nonneg hnn] at hA1
      linarith
    · rw [alpha_2_pi_of_neg hnn] at hA2
      linarith
  · -- rules 1 and 3 exclusive
    intro a b
    refine not_and_or.mp ?_
    rintro ⟨h1, h2⟩
    unfold rule_overtaking_stand_on at h1
    unfold rule_head_on at h2
    rw [theta15_low, theta15_high] at h1
    unfold colreg_limit at h1 h2
    obtain ⟨hb1, hb2, -⟩ := h1
    obtain ⟨hB, -⟩ := h2
    by_cases hm : 0 ≤ b ∧ b ≤ Real.pi
    · rw [beta_pi_of_mem hm.1 hm.2] at hB
      obtain ⟨-, hb4⟩ := abs_le.mp (by linarith : |b| ≤ 0.088)
      linarith
    · rw [beta_pi_of_not_mem hm] at hB
      obtain ⟨hb3, -⟩ := abs_le.mp (by linarith : |b - 2 * Real.pi| ≤ 0.088)
      linarith
  · -- rules 1 and 4 exclusive
    intro a b
    refine not_and_or.mp ?_
    rintro ⟨h1, h2⟩
    unfold rule_overtaking_stand_on at h1
    unfold rule_crossing_give_way at h2
    rw [theta15_low, theta15_high] at h1
    rw [theta15_low] at h2
    linarith [h1.1, h2.2.1]
  · -- rules 2 and 3 exclusive
    intro a b
    refine not_and_or.mp ?_
    rintro ⟨h1, h2⟩
    unfold rule_overtaking_give_way at h1
    unfold rule_head_on at h2
    rw [theta15_low, theta15_high] at h1
    unfold colreg_limit at h1 h2
    obtain ⟨hA1, hA2, -⟩ := h1
    obtain ⟨-, hA⟩ := h2
    obtain ⟨ha1, ha2⟩ := abs_le.mp (by linarith : |a| ≤ 0.088)
    by_cases hnn : 0 ≤ a
    · rw [alpha_2_pi_of_nonneg hnn] at hA1
      linarith
    · rw [alpha_2_pi_of_neg hnn] at hA2
      linarith
  · -- rules 2 and 5 exclusive
    intro a b
    refine not_and_or.mp ?_
    rintro ⟨h1, h2⟩
    unfold rule_overtaking_give_way at h1
    unfold rule_crossing_stand_on at h2
    rw [theta15_low, theta15_high] at h1
    rw [theta15_low] at h2
    linarith [h1.1, h2.2.1]
  · -- rules 1 and 5 overlap at (0.05, 3.35)
    have hbm : ¬((0 : ℝ) ≤ 3.35 ∧ (3.35 : ℝ) ≤ Real.pi) := by
      rintro ⟨-, hle⟩
      linarith
    refine ⟨0.05, 3.35, ⟨by linarith, by linarith, by norm_num, by linarith⟩, ?_, ?_⟩
    · unfold rule_overtaking_stand_on
      rw [theta15_low, theta15_high, habs005]
      unfold colreg_limit
      norm_num
    · unfold rule_crossing_stand_on
      rw [theta15_low, h005a, beta_pi_of_not_mem hbm]
      unfold colreg_limit
      refine ⟨by norm_num, by norm_num, by linarith, by linarith⟩
  · -- rules 2 and 4 overlap at (-2.9, 0.05)
    refine ⟨-2.9, 0.05, ⟨by linarith, by linarith, by norm_num, by linarith⟩, ?_, ?_⟩
    · unfold rule_overtaking_give_way
      rw [theta15_low, theta15_high, alpha_2_pi_of_neg (by norm_num), h005b, habs005]
      unfold colreg_limit
      refine ⟨by linarith, by linarith, by norm_num⟩
    · unfold rule_crossing_give_way
      rw [theta15_low]
      unfold colreg_limit
      norm_num
  · -- rules 3 and 4 overlap at (0.05, 0.05)
    refine ⟨0.05, 0.05, ⟨by linarith, by linarith, by norm_num, by linarith⟩, ?_, ?_⟩
    · unfold rule_head_on
      rw [h005b, habs005]
      unfold colreg_limit
      norm_num
    · unfold rule_crossing_give_way
      rw [theta15_low]
      unfold colreg_limit
      norm_num
  · -- rules 3 and 5 overlap at (0.05, 0.05)
    refine ⟨0.05, 0.05, ⟨by linarith, by linarith, by norm_num, by linarith⟩, ?_, ?_⟩
    · unfold rule_head_on
      rw [h005b, habs005]
      unfold colreg_limit
      norm_num
    · unfold rule_crossing_stand_on
      rw [theta15_low, h005a, h005b]
      unfold colreg_limit
      norm_num
  · -- rules 4 and 5 overlap at (0.05, 0.05)
    refine ⟨0.05, 0.05, ⟨by linarith, by linarith, by norm_num, by linarith⟩, ?_, ?_⟩
    · unfold rule_crossing_give_way
      rw [theta15_low]
      unfold colreg_limit
      norm_num
    · unfold rule_crossing_stand_on
      rw [theta15_low, h005a, h005b]
      unfold colreg_limit
      norm_num

/-- C8 (amended): `ssa` maps every angle into the half-open interval
`[−π, π)` (not `(−π, π]`) and is congruent to its input modulo 2π. -/
theorem C8_ssa_range_and_congruence (angle : ℝ) :
    (-Real.pi ≤ ssa angle ∧ ssa angle < Real.pi) ∧
      ∃ k : ℤ, angle - ssa angle = 2 * Real.pi * k :=
  ⟨ssa_mem angle, ⟨_, ssa_sub angle⟩⟩

/-- C8 counterexample: `ssa π = −π`, which is outside the claimed interval
`(−π, π]`. -/
theorem C8_counterexample : ssa Real.pi = -Real.pi ∧ ¬(-Real.pi < ssa Real.pi) := by
  have h : ssa Real.pi = -Real.pi := by
    unfold ssa npMod
    rw [show (Real.pi + Real.pi) / (2 * Real.pi) = 1 by
      rw [div_eq_one_iff_eq (ne_of_gt two_pi_pos)]; ring]
    rw [Int.floor_one]
    push_cast
    ring
  exact ⟨h, by rw [h]; simp⟩

/-- C9 (code bug): `path_crosses_land` does not sample 10 points: at the
default horizon of 50 it would loop `int(50/10) = 5` times, and the first
iteration raises (it builds `types.Position` without its required `x`/`y`
fields and calls `calculate_position_at_certain_time` with a missing
argument), so no land-mask lookup ever happens. -/
theorem C9_path_crosses_land_raises :
    num_position_checks 50 = 5 ∧ (5 : ℤ) ≠ 10 ∧
      ∀ pn pe s c la lo, path_crosses_land pn pe s c la lo 50 =
        .error path_crosses_land_error := by
  have h5 : num_position_checks 50 = 5 := by
    unfold num_position_checks pyInt
    rw [if_pos (by norm_num)]
    rw [show (50 : ℝ) / 10 = ((5 : ℤ) : ℝ) by norm_num]
    exact Int.floor_intCast 5
  refine ⟨h5, by norm_num, fun pn pe s c la lo => ?_⟩
  unfold path_crosses_land
  rw [if_neg (by rw [h5]; norm_num)]

/-- C10: `generate_encounter` never mutates the caller's template list —
`decide_target_ship` deep-copies the selected element, the search loops
never write to the list, and on success id/name are assigned only on the
copy, so the list is unchanged after the call. -/
theorem C10_templates_unchanged (g : GenArgs) :
    (generate_encounter_run g).templates = g.target_ships_static := by
  unfold generate_encounter_run
  rw [outer_loop_templates]
  rfl

end TrafficGen
